import Mathlib

/-!
Shallow embedding of the RAG_IPS retrieval pipeline
(document_processor.py, vector_database.py, rag_service.py, api.py)
and proofs of the specified properties.

Python strings are modelled as lists of Unicode code points (List Char);
len(s) is List.length, s[:n] is List.take, and the Python whitespace
classification (str.isspace / regex \s on str) is the fixed Unicode set
below. Floating point numbers carried through the pipeline (embeddings,
distances, similarity scores) are modelled as exact rationals.
-/

/-- Python strings as sequences of code points. -/
abbrev PyStr := List Char

/-- Code points classified as whitespace by Python (Py_UNICODE_ISSPACE),
which is the set used both by str.strip and by the regex class \s on str:
0x09-0x0D, 0x1C-0x1F, space, NEL, NBSP, and the Unicode space separators. -/
def pySpaceCodes : List Nat :=
  [0x09, 0x0a, 0x0b, 0x0c, 0x0d, 0x1c, 0x1d, 0x1e, 0x1f, 0x20,
   0x85, 0xa0, 0x1680,
   0x2000, 0x2001, 0x2002, 0x2003, 0x2004, 0x2005, 0x2006, 0x2007,
   0x2008, 0x2009, 0x200a, 0x2028, 0x2029, 0x202f, 0x205f, 0x3000]

/-- Whether a code point is Python whitespace. -/
def isPySpace (c : Char) : Bool := c.toNat ∈ pySpaceCodes

/-- Auxiliary scan for collapseWs; the flag records whether the previous
character belonged to a whitespace run already replaced by one space. -/
def collapseWsAux : Bool → PyStr → PyStr
  | _, [] => []
  | prevSpace, c :: cs =>
    if isPySpace c then
      if prevSpace then collapseWsAux true cs
      else ' ' :: collapseWsAux true cs
    else c :: collapseWsAux false cs

/-- Embeds the first step of DocumentProcessor.clean_text, the substitution
of every maximal run of whitespace by a single space. -/
def collapseWs (s : PyStr) : PyStr := collapseWsAux false s

/-- Whether a code point lies in the control ranges stripped by clean_text:
0x00-0x08, 0x0b, 0x0c, 0x0e-0x1f. -/
def isStrippedCtrl (c : Char) : Bool :=
  (c.toNat ≤ 0x08) || c.toNat == 0x0b || c.toNat == 0x0c ||
  (0x0e ≤ c.toNat && c.toNat ≤ 0x1f)

/-- Embeds the second step of DocumentProcessor.clean_text, the deletion of
the control characters in the stripped ranges. -/
def removeCtrl (s : PyStr) : PyStr := s.filter (fun c => !isStrippedCtrl c)

/-- Python str.strip with no argument: drop leading whitespace. -/
def lstripWs (s : PyStr) : PyStr := s.dropWhile isPySpace

/-- Python str.strip with no argument: drop leading and trailing whitespace. -/
def pystrip (s : PyStr) : PyStr :=
  ((lstripWs s).reverse.dropWhile isPySpace).reverse

/-- Embeds DocumentProcessor.clean_text: collapse whitespace runs to single
spaces, delete the dangerous control characters, then strip. -/
def clean_text (s : PyStr) : PyStr := pystrip (removeCtrl (collapseWs s))

/-- Whether the string contains two consecutive whitespace characters. -/
def hasWsRun : PyStr → Bool
  | [] => false
  | [_] => false
  | a :: b :: rest => (isPySpace a && isPySpace b) || hasWsRun (b :: rest)


-- ----------------------------------------------------------------------
-- Data model: document chunks and the Chroma collection (vector_database.py)
-- ----------------------------------------------------------------------

/-- Metadata attached to every chunk by DocumentProcessor.process_document. -/
structure DocMetadata where
  source : String
  filename : String
  chunk_id : Nat
  total_chunks : Nat
deriving DecidableEq

/-- A processed chunk as produced by DocumentProcessor: content plus metadata. -/
structure Doc where
  content : PyStr
  metadata : DocMetadata
deriving DecidableEq

/-- A record stored in the ChromaDB collection: id, embedding, document text
and metadata. Embedding coordinates are modelled as exact rationals. -/
structure ChromaEntry where
  id : String
  embedding : List ℚ
  document : PyStr
  metadata : DocMetadata
deriving DecidableEq

/-- Model of chromadb Collection.add for one record (chromadb 0.4, the
PersistentClient API used by this repository): a record whose id already
exists in the collection is skipped with a warning and the stored record is
kept; it is not replaced. New ids are appended. -/
def chromaAdd (c : List ChromaEntry) (e : ChromaEntry) : List ChromaEntry :=
  if c.any (fun x => x.id == e.id) then c else c ++ [e]

/-- Model of chromadb Collection.add for a batch of records. -/
def chromaAddAll (c : List ChromaEntry) (es : List ChromaEntry) : List ChromaEntry :=
  es.foldl chromaAdd c

/-- The id string built by VectorDatabase.add_documents for a chunk. -/
def docId (d : Doc) : String :=
  d.metadata.filename ++ "_" ++ toString d.metadata.chunk_id

/-- Embeds VectorDatabase.add_documents: with no documents the collection is
untouched; otherwise every document is embedded and the batch is passed to
Collection.add with ids filename_chunkid. The sentence-transformers embedding
model is the function argument. -/
def add_documents (embed : PyStr → List ℚ) (c : List ChromaEntry)
    (docs : List Doc) : List ChromaEntry :=
  if docs.isEmpty then c
  else chromaAddAll c (docs.map (fun d =>
    { id := docId d, embedding := embed d.content,
      document := d.content, metadata := d.metadata }))

/-- Squared Euclidean distance, the default metric of a chromadb collection
created without an hnsw:space setting, as in VectorDatabase.__init__. -/
def sqL2 (a b : List ℚ) : ℚ := (List.zipWith (fun x y => (x - y) ^ 2) a b).sum

/-- One raw hit of a Chroma query: document, metadata and distance. -/
structure RawHit where
  document : PyStr
  metadata : DocMetadata
  distance : ℚ
deriving DecidableEq

/-- Stable insertion of a hit into a distance-sorted list. -/
def insertByDist (x : RawHit) : List RawHit → List RawHit
  | [] => [x]
  | y :: ys => if x.distance < y.distance then x :: y :: ys else y :: insertByDist x ys

/-- Sorting hits by ascending distance, nearest first; models the order in
which chromadb Collection.query returns its results. -/
def sortByDist : List RawHit → List RawHit
  | [] => []
  | x :: xs => insertByDist x (sortByDist xs)

/-- Model of chromadb Collection.query with one query embedding: the
n_results nearest records by ascending distance; when n_results exceeds the
collection size all records are returned (chromadb 0.4 lowers n_results). -/
def chromaQuery (c : List ChromaEntry) (q : List ℚ) (n : Nat) : List RawHit :=
  (sortByDist (c.map (fun e =>
    { document := e.document, metadata := e.metadata,
      distance := sqL2 q e.embedding }))).take n

/-- A formatted result of VectorDatabase.search. -/
structure SearchResult where
  content : PyStr
  metadata : DocMetadata
  similarity_score : ℚ
  rank : Nat
deriving DecidableEq

/-- Embeds VectorDatabase.search: embed the query, run the collection query,
convert distance to similarity as 1 - distance and attach 1-based ranks. -/
def search (embed : PyStr → List ℚ) (c : List ChromaEntry)
    (query : PyStr) (n_results : Nat) : List SearchResult :=
  ((chromaQuery c (embed query) n_results).enum).map (fun p =>
    { content := p.2.document, metadata := p.2.metadata,
      similarity_score := 1 - p.2.distance, rank := p.1 + 1 })

-- ----------------------------------------------------------------------
-- Configuration constants (config.py)
-- ----------------------------------------------------------------------

/-- config.LMSTUDIO_MODEL. -/
def LMSTUDIO_MODEL : String := "qwen2.5-coder-14b-instruct"

/-- config.MAX_RETRIEVED_DOCS. -/
def MAX_RETRIEVED_DOCS : Nat := 5

/-- config.MAX_CONTEXT_LENGTH. -/
def MAX_CONTEXT_LENGTH : Nat := 4000

-- ----------------------------------------------------------------------
-- Context assembly and prompt construction (rag_service.py)
-- ----------------------------------------------------------------------

/-- Two-decimal fixed-point rendering of a similarity score, as produced by
the Python format specifier .2f on the reported value; ties of the underlying
binary float are abstracted by round. -/
def fmt2 (q : ℚ) : PyStr :=
  let n : Int := round (q * 100)
  let sign : PyStr := if n < 0 then ['-'] else []
  let m : Nat := n.natAbs
  sign ++ Nat.toDigits 10 (m / 100) ++ ['.'] ++
    (if m % 100 < 10 then ['0'] else []) ++ Nat.toDigits 10 (m % 100)

/-- One labeled context block of RAGService._format_context. -/
def formatBlock (d : SearchResult) : PyStr :=
  "[Источник: ".data ++ d.metadata.filename.data ++
  ", релевантность: ".data ++ fmt2 d.similarity_score ++
  "]\n".data ++ d.content ++ "\n".data

/-- The delimiter joined between context blocks. -/
def blockDelimiter : PyStr := "\n---\n".data

/-- The marker appended by RAGService._format_context when it truncates. -/
def truncationMarker : PyStr := "...\n[Контекст обрезан]".data

/-- RAGService._format_context with the length budget as a parameter. -/
def format_context_with (maxLen : Nat) (docs : List SearchResult) : PyStr :=
  let context := List.intercalate blockDelimiter (docs.map formatBlock)
  if maxLen < context.length then context.take maxLen ++ truncationMarker
  else context

/-- Embeds RAGService._format_context: blocks joined by the delimiter, cut at
MAX_CONTEXT_LENGTH characters with an explicit truncation marker. -/
def format_context (docs : List SearchResult) : PyStr :=
  format_context_with MAX_CONTEXT_LENGTH docs

/-- Embeds RAGService._build_prompt: the fixed grounding template around the
assembled context and the question. -/
def build_prompt (query context : PyStr) : PyStr :=
  "Ты эксперт по системе IPS PLM и модулям расширения. \n\nНа основе предоставленной документации ответь на вопрос пользователя максимально точно и подробно. Используй только информацию из предоставленных источников.\n\nДОКУМЕНТАЦИЯ:\n".data
  ++ context
  ++ "\n\nВОПРОС: ".data ++ query
  ++ "\n\nОТВЕТ: Отвечай на русском языке, структурируй ответ, указывай источники информации когда это уместно.".data

-- ----------------------------------------------------------------------
-- The LMStudio backend model and RAGService._call_lmstudio
-- ----------------------------------------------------------------------

/-- Outcome of one HTTP request issued through the httpx client: a response
with a status code and body text, a connection error (httpx.ConnectError), or
any other raised exception such as a timeout, carrying its message. -/
inductive HttpOutcome where
  | response (status : Nat) (body : String)
  | connectError
  | otherError (msg : String)
deriving DecidableEq

/-- Environment model of the LMStudio server as observed by RAGService: the
outcomes of the health probe, the models listing and the chat completion,
plus the model ids parsed from a 200 models response and the content parsed
from choices of a 200 completion response. -/
structure Backend where
  healthOutcome : HttpOutcome
  modelsOutcome : HttpOutcome
  modelIds : List String
  completionOutcome : HttpOutcome
  completionContent : String
deriving DecidableEq

/-- Diagnostic text returned when the health probe answers non-200. -/
def healthFailMsg : String :=
  "Ошибка: LMStudio недоступен. Убедитесь, что сервер запущен на localhost:1234"

/-- Diagnostic text returned on httpx.ConnectError. -/
def connectErrorMsg : String :=
  "Ошибка подключения к LMStudio. Убедитесь, что LMStudio запущен на localhost:1234"

/-- Diagnostic text returned on a non-200 chat completion response. -/
def apiErrorMsg (status : Nat) (body : String) : String :=
  "Ошибка LMStudio API: " ++ toString status ++ " - " ++ body

/-- Diagnostic text returned on any other exception, timeouts included. -/
def callErrorMsg (e : String) : String :=
  "Ошибка при обращении к LMStudio: " ++ e

/-- The model selection line of RAGService._call_lmstudio: Python treats both
None and the empty string as falsy, so either one selects the configured
default LMSTUDIO_MODEL. -/
def chooseModel (model : Option String) : String :=
  match model with
  | none => LMSTUDIO_MODEL
  | some m => if m = "" then LMSTUDIO_MODEL else m

/-- Result of one _call_lmstudio invocation: the returned answer string and
the model name placed in the posted payload, none when no POST was issued. -/
structure LMCall where
  answer : String
  postedModel : Option String
deriving DecidableEq

/-- Embeds RAGService._call_lmstudio: probe health, pick the model, post the
completion request; every failure path is converted to a diagnostic string
rather than an exception. The prompt argument goes into the payload and does
not influence control flow. -/
def lmstudio_call (b : Backend) (prompt : PyStr) (model : Option String) : LMCall :=
  match b.healthOutcome with
  | .connectError => { answer := connectErrorMsg, postedModel := none }
  | .otherError e => { answer := callErrorMsg e, postedModel := none }
  | .response hstatus _ =>
    if hstatus ≠ 200 then { answer := healthFailMsg, postedModel := none }
    else
      let m := chooseModel model
      match b.completionOutcome with
      | .connectError => { answer := connectErrorMsg, postedModel := some m }
      | .otherError e => { answer := callErrorMsg e, postedModel := some m }
      | .response status body =>
        if status = 200 then { answer := b.completionContent, postedModel := some m }
        else { answer := apiErrorMsg status body, postedModel := some m }

/-- Mutable model bookkeeping of RAGService: the cached available model list
and the current model, both set only by _refresh_available_models. -/
structure RagState where
  available_models : List String
  current_model : Option String
deriving DecidableEq

/-- Embeds RAGService._refresh_available_models: on a 200 models response the
parsed id list is cached and returned, and current_model, when still falsy,
is set to the first entry; on any failure the empty list is returned and the
state is left unchanged. -/
def refresh_available_models (b : Backend) (st : RagState) :
    List String × RagState :=
  match b.modelsOutcome with
  | .response status _ =>
    if status = 200 then
      let avail := b.modelIds
      let cur : Option String :=
        match st.current_model, avail with
        | none, m :: _ => some m
        | some "", m :: _ => some m
        | c, _ => c
      (avail, { available_models := avail, current_model := cur })
    else ([], st)
  | _ => ([], st)

-- ----------------------------------------------------------------------
-- RAGService.query and the /query route (rag_service.py, api.py)
-- ----------------------------------------------------------------------

/-- The fixed no-relevant-information answer of RAGService.query. -/
def noRelevantMsg : String :=
  "Извините, я не нашел релевантной информации в документации по вашему запросу."

/-- Python list(set(xs)): set iteration order is unspecified, modelled as
first-occurrence deduplication. -/
def dedupFirst : List String → List String
  | [] => []
  | x :: xs => x :: dedupFirst (xs.filter (fun y => y != x))
termination_by l => l.length
decreasing_by
  simp only [List.length_cons]
  exact Nat.lt_succ_of_le (List.length_filter_le _ _)

/-- The dictionary returned by RAGService.query. The empty-retrieval branch
returns a dictionary that carries only answer, sources and query; the two
count fields are none there because the Python dict has no such keys. -/
structure QueryDict where
  answer : String
  sources : List String
  query : PyStr
  retrieved_docs : Option Nat
  context_length : Option Nat
deriving DecidableEq

/-- Embeds RAGService.query: search, then either the fixed no-information
dictionary, or context assembly, prompt construction, the LMStudio call and
the full dictionary with first-seen deduplicated source filenames. -/
def rag_query (embed : PyStr → List ℚ) (c : List ChromaEntry) (b : Backend)
    (question : PyStr) (n_docs : Option Nat) : QueryDict :=
  let nd := n_docs.getD MAX_RETRIEVED_DOCS
  let relevant := search embed c question nd
  if relevant.isEmpty then
    { answer := noRelevantMsg, sources := [], query := question,
      retrieved_docs := none, context_length := none }
  else
    let context := format_context relevant
    let prompt := build_prompt question context
    let answer := (lmstudio_call b prompt none).answer
    { answer := answer,
      sources := dedupFirst (relevant.map (fun d => d.metadata.filename)),
      query := question,
      retrieved_docs := some relevant.length,
      context_length := some context.length }

/-- An HTTP error response of the FastAPI layer: status code and detail. -/
structure HTTPError where
  status : Nat
  detail : String
deriving DecidableEq

/-- The api.py response model QueryResponse: all five fields are required. -/
structure QueryResponse where
  answer : String
  sources : List String
  retrieved_docs : Nat
  query : PyStr
  context_length : Nat
deriving DecidableEq

/-- Detail text of the blank-question rejection in api.query_rag. -/
def emptyQuestionDetail : String := "Вопрос не может быть пустым"

/-- An exception raised inside the body of the /query handler: either a
FastAPI HTTPException or a pydantic validation failure of QueryResponse. -/
inductive PyExn where
  | http (status : Nat) (detail : String)
  | validation (msg : String)
deriving DecidableEq

/-- Python str of the exception: HTTPException prints status and detail,
the validation error prints its own message. -/
def pyExnStr : PyExn → String
  | .http s d => toString s ++ ": " ++ d
  | .validation m => m

/-- The message text of the pydantic ValidationError raised when required
fields of QueryResponse are missing; the exact wording is pydantic internals
and is not load bearing. -/
def pydanticMissingMsg : String :=
  "validation errors for QueryResponse: retrieved_docs Field required, context_length Field required"

/-- Validating construction QueryResponse(**result): fails when a required
field is absent from the dictionary. -/
def mkQueryResponse (d : QueryDict) : Except PyExn QueryResponse :=
  match d.retrieved_docs, d.context_length with
  | some r, some cl =>
    .ok { answer := d.answer, sources := d.sources, retrieved_docs := r,
          query := d.query, context_length := cl }
  | _, _ => .error (.validation pydanticMissingMsg)

/-- The body of the try block of api.query_rag: reject a question that is
blank after strip with a 400 HTTPException, otherwise run RAGService.query
and validate the response model. -/
def query_rag_inner (embed : PyStr → List ℚ) (c : List ChromaEntry)
    (b : Backend) (question : PyStr) (max_docs : Option Nat) :
    Except PyExn QueryResponse :=
  if (pystrip question).isEmpty then
    .error (.http 400 emptyQuestionDetail)
  else
    mkQueryResponse (rag_query embed c b question max_docs)

/-- The wrapping applied by the blanket exception handler of api.query_rag. -/
def wrapDetail (s : String) : String := "Ошибка обработки запроса: " ++ s

/-- Embeds the /query route api.query_rag: every exception escaping the try
block, the handlers own 400 HTTPException included, is caught by the blanket
except clause and re-raised as a 500 HTTPException with wrapped detail. -/
def query_rag (embed : PyStr → List ℚ) (c : List ChromaEntry) (b : Backend)
    (question : PyStr) (max_docs : Option Nat) : Except HTTPError QueryResponse :=
  match query_rag_inner embed c b question max_docs with
  | .ok r => .ok r
  | .error e => .error { status := 500, detail := wrapDetail (pyExnStr e) }

-- ----------------------------------------------------------------------
-- DocumentProcessor.process_document (document_processor.py)
-- ----------------------------------------------------------------------

/-- Embeds DocumentProcessor.process_document with its external pieces as
parameters: the extracted raw text is the text argument and the langchain
RecursiveCharacterTextSplitter is the split argument. A document blank after
strip yields no chunks; otherwise each chunk of the split receives metadata
with its enumeration index and the total chunk count. -/
def process_document (split : PyStr → List PyStr) (text : PyStr)
    (src fname : String) : List Doc :=
  if (pystrip text).isEmpty then []
  else
    let chunks := split text
    chunks.enum.map (fun p =>
      { content := p.2,
        metadata := { source := src, filename := fname,
                      chunk_id := p.1, total_chunks := chunks.length } })

-- ----------------------------------------------------------------------
-- Concrete example data used in evaluations
-- ----------------------------------------------------------------------

/-- A backend whose every request fails with a connection error. -/
def bOffline : Backend :=
  { healthOutcome := .connectError, modelsOutcome := .connectError,
    modelIds := [], completionOutcome := .connectError,
    completionContent := "" }

/-- A healthy backend advertising the single model m1, which differs from the
configured default. -/
def bModels : Backend :=
  { healthOutcome := .response 200 "", modelsOutcome := .response 200 "",
    modelIds := ["m1"], completionOutcome := .response 200 "ok",
    completionContent := "ok" }

/-- A one-entry collection with a one-dimensional zero embedding. -/
def sampleEntry : ChromaEntry :=
  { id := "f_0", embedding := [0], document := "d".data,
    metadata := { source := "s", filename := "f", chunk_id := 0,
                  total_chunks := 1 } }

-- ----------------------------------------------------------------------
-- Helper lemmas
-- ----------------------------------------------------------------------

-- Basic lemmas about the normalization pipeline.

theorem mem_dropWhile_imp {p : Char → Bool} {a : Char} :
    ∀ {l : PyStr}, a ∈ l.dropWhile p → a ∈ l := by
  intro l h
  induction l with
  | nil => simp [List.dropWhile] at h
  | cons c cs ih =>
    by_cases hc : p c
    · simp [List.dropWhile, hc] at h
      exact List.mem_cons_of_mem _ (ih h)
    · simpa [List.dropWhile, hc] using h

theorem mem_pystrip_imp {a : Char} {l : PyStr} (h : a ∈ pystrip l) : a ∈ l := by
  unfold pystrip lstripWs at h
  rw [List.mem_reverse] at h
  have h2 := mem_dropWhile_imp h
  rw [List.mem_reverse] at h2
  exact mem_dropWhile_imp h2

theorem head_pystrip_not_space {c : Char} {l : PyStr}
    (h : (pystrip l).head? = some c) : isPySpace c = false := by
  unfold pystrip at h
  obtain ⟨u, hu⟩ : List.IsPrefix (pystrip l) (lstripWs l) := by
    unfold pystrip
    have hs : (lstripWs l).reverse.dropWhile isPySpace <:+ (lstripWs l).reverse :=
      List.dropWhile_suffix isPySpace
    have hp := List.reverse_prefix.mpr hs
    rwa [List.reverse_reverse] at hp
  have hhead : (lstripWs l).head? = some c := by
    unfold pystrip at hu
    cases hp : ((lstripWs l).reverse.dropWhile isPySpace).reverse with
    | nil => rw [hp] at h; simp at h
    | cons x xs =>
      rw [hp] at h hu
      simp at h
      rw [← hu, h]
      simp
  have := List.head?_dropWhile_not isPySpace l
  unfold lstripWs at hhead
  rw [hhead] at this
  exact this

theorem getLast_pystrip_not_space {c : Char} {l : PyStr}
    (h : (pystrip l).getLast? = some c) : isPySpace c = false := by
  unfold pystrip at h
  rw [List.getLast?_reverse] at h
  have := List.head?_dropWhile_not isPySpace (lstripWs l).reverse
  rw [h] at this
  exact this

theorem not_ctrl_of_mem_clean_text {c : Char} {s : PyStr}
    (h : c ∈ clean_text s) : isStrippedCtrl c = false := by
  have hm : c ∈ removeCtrl (collapseWs s) := mem_pystrip_imp h
  unfold removeCtrl at hm
  rcases List.of_mem_filter hm with hp
  simpa using hp

-- Sorting lemmas.

theorem length_insertByDist (x : RawHit) (l : List RawHit) :
    (insertByDist x l).length = l.length + 1 := by
  induction l with
  | nil => rfl
  | cons y ys ih =>
    unfold insertByDist
    by_cases h : x.distance < y.distance <;> simp [h, ih]

theorem length_sortByDist (l : List RawHit) :
    (sortByDist l).length = l.length := by
  induction l with
  | nil => rfl
  | cons x xs ih => simp [sortByDist, length_insertByDist, ih]

theorem mem_insertByDist {z x : RawHit} {l : List RawHit} :
    z ∈ insertByDist x l ↔ z = x ∨ z ∈ l := by
  induction l with
  | nil => simp [insertByDist]
  | cons y ys ih =>
    unfold insertByDist
    by_cases h : x.distance < y.distance
    · simp [h]
    · simp [h, ih]
      tauto

theorem pairwise_insertByDist {x : RawHit} {l : List RawHit}
    (hl : l.Pairwise (fun a b => a.distance ≤ b.distance)) :
    (insertByDist x l).Pairwise (fun a b => a.distance ≤ b.distance) := by
  induction l with
  | nil => simp [insertByDist]
  | cons y ys ih =>
    rcases List.pairwise_cons.mp hl with ⟨hy, hys⟩
    unfold insertByDist
    by_cases h : x.distance < y.distance
    · simp only [h, if_true]
      refine List.pairwise_cons.mpr ⟨?_, hl⟩
      intro z hz
      rcases List.mem_cons.mp hz with hz | hz
      · exact le_of_lt (hz ▸ h)
      · exact le_trans (le_of_lt h) (hy z hz)
    · simp only [h, if_false]
      refine List.pairwise_cons.mpr ⟨?_, ih hys⟩
      intro z hz
      rcases mem_insertByDist.mp hz with hz | hz
      · exact hz ▸ le_of_not_lt h
      · exact hy z hz

theorem pairwise_sortByDist (l : List RawHit) :
    (sortByDist l).Pairwise (fun a b => a.distance ≤ b.distance) := by
  induction l with
  | nil => simp [sortByDist]
  | cons x xs ih => exact pairwise_insertByDist ih


theorem dedupFirst_ne_nil {l : List String} (h : l ≠ []) : dedupFirst l ≠ [] := by
  cases l with
  | nil => exact absurd rfl h
  | cons x xs => simp [dedupFirst]

theorem rag_query_nonempty (embed : PyStr → List ℚ) (c : List ChromaEntry)
    (b : Backend) (question : PyStr) (n_docs : Option Nat)
    (hs : (search embed c question (n_docs.getD MAX_RETRIEVED_DOCS)).isEmpty = false) :
    rag_query embed c b question n_docs =
      { answer := (lmstudio_call b
          (build_prompt question (format_context
            (search embed c question (n_docs.getD MAX_RETRIEVED_DOCS)))) none).answer,
        sources := dedupFirst ((search embed c question
          (n_docs.getD MAX_RETRIEVED_DOCS)).map (fun d => d.metadata.filename)),
        query := question,
        retrieved_docs := some (search embed c question
          (n_docs.getD MAX_RETRIEVED_DOCS)).length,
        context_length := some (format_context
          (search embed c question (n_docs.getD MAX_RETRIEVED_DOCS))).length } := by
  unfold rag_query
  simp [hs]

/-- Whether the health probe fails: connection error, other exception, or a
non-200 status. -/
def healthFails (b : Backend) : Prop :=
  b.healthOutcome = .connectError ∨
  (∃ e, b.healthOutcome = .otherError e) ∨
  (∃ s body, b.healthOutcome = .response s body ∧ s ≠ 200)

/-- Whether the chat completion request fails: connection error, other
exception such as a timeout, or a non-200 status. -/
def completionFails (b : Backend) : Prop :=
  b.completionOutcome = .connectError ∨
  (∃ e, b.completionOutcome = .otherError e) ∨
  (∃ s body, b.completionOutcome = .response s body ∧ s ≠ 200)

/-- Whether a string is one of the diagnostic failure texts produced by
RAGService._call_lmstudio, as opposed to backend completion content. -/
def isDiagnostic (s : String) : Prop :=
  s = healthFailMsg ∨ s = connectErrorMsg ∨
  (∃ st body, s = apiErrorMsg st body) ∨ (∃ e, s = callErrorMsg e)

theorem lmstudio_call_diagnostic {b : Backend} {prompt : PyStr}
    {model : Option String} (hb : healthFails b ∨ completionFails b) :
    isDiagnostic (lmstudio_call b prompt model).answer := by
  unfold lmstudio_call
  cases hh : b.healthOutcome with
  | connectError => exact Or.inr (Or.inl rfl)
  | otherError e => exact Or.inr (Or.inr (Or.inr ⟨e, rfl⟩))
  | response hstatus hbody =>
    by_cases h200 : hstatus = 200
    · subst h200
      simp only [ne_eq, not_true_eq_false, if_false, ite_false]
      have hcf : completionFails b := by
        rcases hb with hf | hf
        · rcases hf with h1 | ⟨e, h1⟩ | ⟨s, body, h1, hne⟩
          · rw [hh] at h1; exact absurd h1 (by simp)
          · rw [hh] at h1; exact absurd h1 (by simp)
          · rw [hh] at h1
            injection h1 with h1a _
            exact absurd h1a.symm hne
        · exact hf
      cases hc : b.completionOutcome with
      | connectError => exact Or.inr (Or.inl rfl)
      | otherError e => exact Or.inr (Or.inr (Or.inr ⟨e, rfl⟩))
      | response cstatus cbody =>
        have hne : cstatus ≠ 200 := by
          rcases hcf with h1 | ⟨e, h1⟩ | ⟨s, body, h1, hne⟩ <;> rw [hc] at h1
          · exact absurd h1 (by simp)
          · exact absurd h1 (by simp)
          · injection h1 with h1a _; exact h1a ▸ hne
        simp only [hne, if_false, ite_false]
        exact Or.inr (Or.inr (Or.inl ⟨cstatus, cbody, rfl⟩))
    · simp only [ne_eq, h200, not_false_eq_true, if_true, ite_true]
      exact Or.inl rfl

-- ----------------------------------------------------------------------
-- Claim theorems
-- ----------------------------------------------------------------------

/-- C9: for every document processed into n fragments, the chunk_id values
are exactly the contiguous range 0..n-1 in document order, and every
fragment carries total_chunks = n. -/
theorem C9_chunk_indices_contiguous (split : PyStr → List PyStr)
    (text : PyStr) (src fname : String) :
    ((process_document split text src fname).map (fun d => d.metadata.chunk_id))
      = List.range (process_document split text src fname).length ∧
    ∀ d ∈ process_document split text src fname,
      d.metadata.total_chunks = (process_document split text src fname).length := by
  unfold process_document
  by_cases h : (pystrip text).isEmpty
  · simp [h]
  · rw [if_neg (by simpa using h)]
    constructor
    · have h1 : List.map (fun d : Doc => d.metadata.chunk_id)
          (List.map (fun p : Nat × PyStr =>
            (⟨p.2, ⟨src, fname, p.1, (split text).length⟩⟩ : Doc))
            (split text).enum)
          = List.map Prod.fst (split text).enum := by
        rw [List.map_map]
        rfl
      rw [h1, List.enum_map_fst, List.length_map, List.enum_length]
    · intro d hd
      rw [List.length_map, List.enum_length]
      rcases List.mem_map.mp hd with ⟨p, _, hp⟩
      rw [← hp]

/-- C9 witness: the theorem applied to a one-chunk splitter on a concrete
document. -/
theorem C9_chunk_indices_contiguous_witness :
    (⟨"ab".data, ⟨"s", "f", 0, 1⟩⟩ : Doc).metadata.total_chunks
      = (process_document (fun t => [t]) "ab".data "s" "f").length :=
  (C9_chunk_indices_contiguous (fun t => [t]) "ab".data "s" "f").2
    ⟨"ab".data, ⟨"s", "f", 0, 1⟩⟩ (by decide)

/-- C10 counterexample: clean_text is not idempotent and its output can
contain a run of two consecutive spaces, because the control character
deletion runs after whitespace collapsing and can merge two single spaces.
The input is the five characters a, space, the control byte 0x01, space, b. -/
theorem C10_counterexample :
    hasWsRun (clean_text ['a', ' ', Char.ofNat 1, ' ', 'b']) = true ∧
    clean_text (clean_text ['a', ' ', Char.ofNat 1, ' ', 'b'])
      ≠ clean_text ['a', ' ', Char.ofNat 1, ' ', 'b'] := by
  decide

/-- C10 (amended): the output of clean_text contains no control characters
from the stripped ranges and no leading or trailing whitespace; however,
clean_text is not idempotent and its output can contain runs of consecutive
whitespace, since control characters are deleted after whitespace
collapsing. This theorem proves the surviving positive parts. -/
theorem C10_clean_text_output_clean (s : PyStr) :
    (∀ c ∈ clean_text s, isStrippedCtrl c = false) ∧
    (∀ c, (clean_text s).head? = some c → isPySpace c = false) ∧
    (∀ c, (clean_text s).getLast? = some c → isPySpace c = false) :=
  ⟨fun _ hc => not_ctrl_of_mem_clean_text hc,
   fun _ hc => head_pystrip_not_space hc,
   fun _ hc => getLast_pystrip_not_space hc⟩

/-- C10 witness: the amended theorem applied to a concrete string. -/
theorem C10_clean_text_output_clean_witness :
    isStrippedCtrl 'x' = false ∧ isPySpace 'x' = false :=
  ⟨(C10_clean_text_output_clean " x ".data).1 'x' (by decide),
   (C10_clean_text_output_clean " x ".data).2.1 'x' (by decide)⟩

/-- C1 counterexample: re-adding the key (f, 0) with new content leaves the
collection with one entry for that key whose content is the original one,
not the latest; Collection.add skips an existing id instead of replacing. -/
theorem C1_counterexample :
    (add_documents (fun _ => [(0 : ℚ)])
        (add_documents (fun _ => [(0 : ℚ)]) []
          [⟨"old".data, ⟨"s", "f", 0, 1⟩⟩])
        [⟨"new".data, ⟨"s", "f", 0, 1⟩⟩])
      = [⟨"f_0", [(0 : ℚ)], "old".data, ⟨"s", "f", 0, 1⟩⟩] ∧
    "old".data ≠ "new".data := by
  constructor
  · rfl
  · decide

/-- C1 (amended): adding a document whose identity key already exists in the
index leaves the index unchanged, so there is exactly one entry for the key
but it keeps the previously stored content; the add is a skip, not a
replace. -/
theorem C1_add_existing_key_noop (embed : PyStr → List ℚ)
    (c : List ChromaEntry) (d : Doc)
    (h : c.any (fun x => x.id == docId d) = true) :
    add_documents embed c [d] = c := by
  unfold add_documents chromaAddAll
  simp [chromaAdd, h]

/-- C1 witness: the amended theorem applied to a one-entry collection whose
single id coincides with the key of the document being re-added. -/
theorem C1_add_existing_key_noop_witness :
    add_documents (fun _ => [(0 : ℚ)]) [sampleEntry]
      [⟨"new".data, ⟨"s", "f", 0, 1⟩⟩] = [sampleEntry] :=
  C1_add_existing_key_noop _ _ _ (by decide)

/-- C4 counterexample: a whitespace-only query against a non-empty index is
embedded and searched like any other query and returns a non-empty result
sequence, refuting the empty-or-whitespace half of the claim. -/
theorem C4_counterexample :
    search (fun _ => [(0 : ℚ)]) [sampleEntry] " ".data 5 ≠ [] := by
  simp [search, chromaQuery, sortByDist, insertByDist, sampleEntry]

/-- C4 (amended): search on an empty index returns the empty result sequence
for every query and never an error; an empty or whitespace-only query is not
special-cased by VectorDatabase.search and, on a non-empty index, returns
results like any other query (the blank-query rejection lives only in the
API route, as an HTTP error rather than an empty sequence). -/
theorem C4_search_empty_index (embed : PyStr → List ℚ) (q : PyStr) (k : Nat) :
    search embed [] q k = [] := by
  simp [search, chromaQuery, sortByDist]

/-- C2: evaluation at the failing input. On the empty index, RAGService.query
returns the fixed no-information answer with empty sources, but the returned
dictionary omits the retrieved_docs and context_length keys, so the /query
route fails the validation of its own declared QueryResponse model and
answers HTTP 500 instead of a successful QueryAnswer with retrieved_count
equal to 0. -/
theorem C2_empty_index_missing_fields :
    rag_query (fun _ => [(0 : ℚ)]) [] bOffline "x".data (some 5)
      = ⟨noRelevantMsg, [], "x".data, none, none⟩ ∧
    query_rag (fun _ => [(0 : ℚ)]) [] bOffline "x".data (some 5)
      = .error ⟨500, wrapDetail pydanticMissingMsg⟩ := by
  constructor
  · rfl
  · rfl

/-- C3: a question blank after strip is rejected before retrieval, embedding
or any backend access, since the result is the same for every embedding
function, collection and backend; but the rejection reaches the caller as an
HTTP 500 wrapping the 400 HTTPException text, because the blanket except
clause of the route catches the handlers own HTTPException, instead of the
InvalidInput rejection the claim describes. -/
theorem C3_blank_question_wrapped_500 (embed : PyStr → List ℚ)
    (c : List ChromaEntry) (b : Backend) (question : PyStr)
    (max_docs : Option Nat) (h : (pystrip question).isEmpty = true) :
    query_rag embed c b question max_docs
      = .error ⟨500, wrapDetail (pyExnStr (.http 400 emptyQuestionDetail))⟩ := by
  unfold query_rag query_rag_inner
  simp [h]

/-- C3 witness: the theorem applied to the single-space question. -/
theorem C3_blank_question_wrapped_500_witness :
    query_rag (fun _ => [(0 : ℚ)]) [sampleEntry] bOffline " ".data none
      = .error ⟨500, wrapDetail (pyExnStr (.http 400 emptyQuestionDetail))⟩ :=
  C3_blank_question_wrapped_500 _ _ _ _ _ (by decide)

/-- C5: when the question is not blank, retrieval is non-empty and the
health probe or the completion call fails in any of the specified ways, the
query still returns a successful response whose answer is one of the
diagnostic failure texts and whose sources are the non-empty deduplicated
source set obtained from retrieval. -/
theorem C5_backend_failure_degrades (embed : PyStr → List ℚ)
    (c : List ChromaEntry) (b : Backend) (question : PyStr)
    (max_docs : Option Nat)
    (hq : (pystrip question).isEmpty = false)
    (hs : search embed c question (max_docs.getD MAX_RETRIEVED_DOCS) ≠ [])
    (hb : healthFails b ∨ completionFails b) :
    ∃ resp, query_rag embed c b question max_docs = .ok resp ∧
      isDiagnostic resp.answer ∧
      resp.sources = dedupFirst ((search embed c question
        (max_docs.getD MAX_RETRIEVED_DOCS)).map (fun d => d.metadata.filename)) ∧
      resp.sources ≠ [] := by
  have hse : (search embed c question
      (max_docs.getD MAX_RETRIEVED_DOCS)).isEmpty = false := by
    cases hx : search embed c question (max_docs.getD MAX_RETRIEVED_DOCS) with
    | nil => exact absurd hx hs
    | cons a l => rfl
  have hrq := rag_query_nonempty embed c b question max_docs hse
  refine ⟨⟨(lmstudio_call b (build_prompt question (format_context
      (search embed c question (max_docs.getD MAX_RETRIEVED_DOCS)))) none).answer,
    dedupFirst ((search embed c question
      (max_docs.getD MAX_RETRIEVED_DOCS)).map (fun d => d.metadata.filename)),
    (search embed c question (max_docs.getD MAX_RETRIEVED_DOCS)).length,
    question,
    (format_context (search embed c question
      (max_docs.getD MAX_RETRIEVED_DOCS))).length⟩, ?_, ?_, ?_⟩
  · unfold query_rag query_rag_inner
    rw [hrq]
    simp [hq, mkQueryResponse]
  · exact lmstudio_call_diagnostic hb
  · refine ⟨rfl, ?_⟩
    refine dedupFirst_ne_nil ?_
    intro hmap
    exact hs (List.map_eq_nil_iff.mp hmap)

/-- C5 witness: the theorem applied to a one-entry index and a backend whose
health probe fails with a connection error. -/
theorem C5_backend_failure_degrades_witness :
    ∃ resp, query_rag (fun _ => [(0 : ℚ)]) [sampleEntry] bOffline
        "q".data (some 1) = .ok resp ∧
      isDiagnostic resp.answer ∧
      resp.sources = dedupFirst ((search (fun _ => [(0 : ℚ)]) [sampleEntry]
        "q".data ((some 1).getD MAX_RETRIEVED_DOCS)).map
          (fun d => d.metadata.filename)) ∧
      resp.sources ≠ [] :=
  C5_backend_failure_degrades _ _ _ _ _ (by decide)
    (by simp [search, chromaQuery, sortByDist, insertByDist, sampleEntry])
    (Or.inl (Or.inl rfl))

/-- C6 counterexample: with a healthy backend advertising only the model m1
and the configured default absent from that refreshed list, a generate call
with unspecified model still posts the configured default, not the first
entry of the refreshed list. -/
theorem C6_counterexample :
    (refresh_available_models bModels ⟨[], none⟩).1 = ["m1"] ∧
    LMSTUDIO_MODEL ∉ ["m1"] ∧
    (lmstudio_call bModels [] none).postedModel = some LMSTUDIO_MODEL ∧
    LMSTUDIO_MODEL ≠ "m1" := by
  refine ⟨rfl, ?_, rfl, ?_⟩
  · decide
  · decide

/-- C6 (amended): when the model argument is unspecified and the health
probe answered 200, the completion payload always names the configured
default LMSTUDIO_MODEL; the refreshed model list is never consulted by the
generate path, which therefore has no fallback to its first entry. -/
theorem C6_default_model_always_posted (b : Backend) (prompt : PyStr)
    (body : String) (h : b.healthOutcome = .response 200 body) :
    (lmstudio_call b prompt none).postedModel = some LMSTUDIO_MODEL := by
  unfold lmstudio_call
  rw [h]
  cases hc : b.completionOutcome with
  | connectError => simp [chooseModel]
  | otherError e => simp [chooseModel]
  | response s b2 =>
    by_cases h2 : s = 200 <;> simp [h2, chooseModel]

/-- C6 witness: the amended theorem applied to the healthy example backend. -/
theorem C6_default_model_always_posted_witness :
    (lmstudio_call bModels [] none).postedModel = some LMSTUDIO_MODEL :=
  C6_default_model_always_posted bModels [] "" rfl

/-- C7: for every embedding function, collection, query and k greater than
0, search returns at most k results, at most as many results as the
collection has entries, and the similarity scores are monotonically
non-increasing in rank order. -/
theorem C7_search_bounded_and_sorted (embed : PyStr → List ℚ)
    (c : List ChromaEntry) (q : PyStr) (k : Nat) (hk : 0 < k) :
    (search embed c q k).length ≤ k ∧
    (search embed c q k).length ≤ c.length ∧
    ((search embed c q k).map (fun r => r.similarity_score)).Pairwise
      (fun a b => b ≤ a) := by
  have hlen : (search embed c q k).length
      = (chromaQuery c (embed q) k).length := by
    rw [search, List.length_map, List.enum_length]
  have hq1 : (chromaQuery c (embed q) k).length ≤ k := by
    rw [chromaQuery, List.length_take]
    exact min_le_left _ _
  have hq2 : (chromaQuery c (embed q) k).length ≤ c.length := by
    rw [chromaQuery, List.length_take]
    calc min k (sortByDist (c.map (fun e =>
          ⟨e.document, e.metadata, sqL2 (embed q) e.embedding⟩))).length
        ≤ (sortByDist (c.map (fun e =>
          ⟨e.document, e.metadata, sqL2 (embed q) e.embedding⟩))).length :=
          min_le_right _ _
      _ = c.length := by rw [length_sortByDist, List.length_map]
  refine ⟨hlen ▸ hq1, hlen ▸ hq2, ?_⟩
  have hpw : (chromaQuery c (embed q) k).Pairwise
      (fun a b => a.distance ≤ b.distance) := by
    rw [chromaQuery]
    exact List.Pairwise.sublist (List.take_sublist _ _) (pairwise_sortByDist _)
  have hmap : (search embed c q k).map (fun r => r.similarity_score)
      = (chromaQuery c (embed q) k).map (fun h => 1 - h.distance) := by
    rw [search, List.map_map]
    have hcomp : ((fun r : SearchResult => r.similarity_score) ∘
        (fun p : Nat × RawHit =>
          (⟨p.2.document, p.2.metadata, 1 - p.2.distance, p.1 + 1⟩ :
            SearchResult)))
        = (fun h : RawHit => 1 - h.distance) ∘ Prod.snd := rfl
    rw [hcomp, ← List.map_map, List.enum_map_snd]
  rw [hmap, List.pairwise_map]
  exact hpw.imp (fun hab => sub_le_sub_left hab 1)

/-- C7 witness: the theorem applied to the one-entry example collection with
k equal to 1. -/
theorem C7_search_bounded_and_sorted_witness :
    (search (fun _ => [(0 : ℚ)]) [sampleEntry] "a".data 1).length ≤ 1 ∧
    (search (fun _ => [(0 : ℚ)]) [sampleEntry] "a".data 1).length
      ≤ [sampleEntry].length ∧
    ((search (fun _ => [(0 : ℚ)]) [sampleEntry] "a".data 1).map
      (fun r => r.similarity_score)).Pairwise (fun a b => b ≤ a) :=
  C7_search_bounded_and_sorted _ _ _ _ (by decide)

/-- C8: for every length budget and result sequence, the assembled context
never exceeds the budget plus the fixed truncation marker length, and
whenever the concatenated blocks exceed the budget the output ends with the
explicit truncation marker. -/
theorem C8_format_context_bounded (maxLen : Nat) (docs : List SearchResult) :
    (format_context_with maxLen docs).length
      ≤ maxLen + truncationMarker.length ∧
    (maxLen < (List.intercalate blockDelimiter (docs.map formatBlock)).length →
      truncationMarker <:+ format_context_with maxLen docs) := by
  unfold format_context_with
  by_cases h : maxLen
      < (List.intercalate blockDelimiter (docs.map formatBlock)).length
  · rw [if_pos h]
    constructor
    · rw [List.length_append]
      have h1 : (List.take maxLen (List.intercalate blockDelimiter
          (docs.map formatBlock))).length ≤ maxLen := by
        rw [List.length_take]
        exact min_le_left _ _
      omega
    · intro _
      exact List.suffix_append _ _
  · rw [if_neg h]
    have h2 := Nat.le_of_not_lt h
    exact ⟨by omega, fun hc => absurd hc h⟩

/-- C8 witness: with a zero budget and one concrete result the concatenated
block exceeds the budget and the output ends with the truncation marker. -/
theorem C8_format_context_bounded_witness :
    0 < (List.intercalate blockDelimiter
      ([(⟨"X".data, ⟨"s", "f", 0, 1⟩, 0, 1⟩ : SearchResult)].map
        formatBlock)).length ∧
    truncationMarker <:+ format_context_with 0
      [(⟨"X".data, ⟨"s", "f", 0, 1⟩, 0, 1⟩ : SearchResult)] := by
  have hpos : 0 < (List.intercalate blockDelimiter
      ([(⟨"X".data, ⟨"s", "f", 0, 1⟩, 0, 1⟩ : SearchResult)].map
        formatBlock)).length := by
    simp [List.intercalate, formatBlock]
  exact ⟨hpos, (C8_format_context_bounded 0 _).2 hpos⟩
